import Mathlib

/-!
Shallow embedding of the ServerTechnology-PDU-Shell-2G driver
(`src/server_tech/handlers/rest_api_handler.py`,
`src/server_tech/handlers/server_tech_handler.py`,
`src/server_tech/flows/server_tech_state_flow.py`, and the earlier
`cloudshell/server_tech/...` generation), together with theorems settling
the specification claims about it.

Conventions of the embedding:
* Python exceptions become values of `ServerTechError`; the class hierarchy
  of `server_tech/helpers/errors.py` is flattened into constructors (the
  retry decorator catches exactly `RESTAPIUnavailableServerTechError`,
  i.e. the `unavailableErr` constructor).
* `requests` responses become `Response J` where `J` is the type standing
  for a parsed JSON body.  Two facts of the `requests` library are encoded
  directly: `raise_for_status` raises exactly for status codes in
  `[400, 600)`, and `bool(response)` is `response.ok`, i.e.
  `status_code < 400`.
* The network is a `transport` function passed explicitly; stateful code
  becomes explicit state passing.
-/

namespace ServerTech

/-- Exception taxonomy of `server_tech/helpers/errors.py`:
`BaseServerTechError` ⊃ `RESTAPIServerTechError` ⊃
`RESTAPIUnavailableServerTechError`, plus `NotSupportedServerTechError`.
Each value carries the message it was constructed with (an error class
raised without arguments is modelled with the empty message). -/
inductive ServerTechError where
  | baseErr (msg : String)
  | restAPIErr (msg : String)
  | unavailableErr (msg : String)
  | notSupportedErr (msg : String)
deriving DecidableEq, Repr

/-- HTTP verbs used by `BaseAPIClient` (`session.get`, `session.post`, ...). -/
inductive HttpMethod where
  | get
  | post
  | put
  | patch
  | delete
deriving DecidableEq, Repr

/-- A `requests.Response`, with the parsed JSON body abstracted as `J`. -/
structure Response (J : Type) where
  status_code : Nat
  body : J
deriving DecidableEq, Repr

/-- `response.json()`. -/
def Response.json {J : Type} (r : Response J) : J := r.body

/-- `bool(response)` in the `requests` library is `response.ok`,
which is `status_code < 400`. -/
def Response.truthy {J : Type} (r : Response J) : Bool :=
  decide (r.status_code < 400)

/-- The request actually dispatched to the transport: verb, full URL and
the `json=` keyword payload (`[]` when the call sends no body). -/
structure HttpRequest where
  method : HttpMethod
  url : String
  jsonBody : List (String × String)
deriving DecidableEq, Repr

/-- `requests.Response.raise_for_status` raises `HTTPError`
exactly for status codes in `[400, 600)`. -/
def isHTTPError (code : Nat) : Bool :=
  decide (400 ≤ code) && decide (code < 600)

/-- The frozen connection fields of `BaseAPIClient`
(`address`, `username`, `password`, `scheme`, `port`, `verify_ssl`). -/
structure ConnParams where
  address : String
  username : String
  password : String
  scheme : String
  port : Nat
  verify_ssl : Bool
deriving DecidableEq, Repr

/-- `ServerTechAPI._base_url`: the string
`f"{self.scheme}://{self.address}:{self.port}/jaws"`. -/
def base_url (c : ConnParams) : String :=
  c.scheme ++ ("://" ++ (c.address ++ (":" ++ (toString c.port ++ "/jaws"))))

/-- The `url` local of `BaseAPIClient._do_request`:
`f"{self._base_url()}/{path}"`. -/
def request_url (c : ConnParams) (path : String) : String :=
  base_url c ++ ("/" ++ path)

/-- `http_error_map.get(http_code)`, on the association-list model of the
Python dict (all error maps in the source have pairwise distinct keys). -/
def mapLookup (m : List (Nat × ServerTechError)) (code : Nat) :
    Option ServerTechError :=
  (m.find? (fun p => p.1 == code)).map (fun p => p.2)

/-- Outcome of one `_do_request` call: either the raw response, or the
exception raised from the `except requests.exceptions.HTTPError` handler. -/
inductive ReqOutcome (J : Type) where
  | ok (res : Response J)
  | err (e : ServerTechError)
deriving DecidableEq, Repr

/-- `BaseAPIClient._do_request`: build `{base_url}/{path}`, dispatch, and on
`raise_for_status and res.raise_for_status()` raising an `HTTPError`,
raise `http_error_map.get(http_code, BaseServerTechError)`;
otherwise return the raw response. -/
def do_request {J : Type} (c : ConnParams) (method : HttpMethod)
    (path : String) (raise_for_status : Bool)
    (http_error_map : List (Nat × ServerTechError))
    (jsonBody : List (String × String))
    (transport : HttpRequest → Response J) : ReqOutcome J :=
  let url := request_url c path
  let res := transport ⟨method, url, jsonBody⟩
  if raise_for_status && isHTTPError res.status_code then
    ReqOutcome.err
      ((mapLookup http_error_map res.status_code).getD
        (ServerTechError.baseErr ("")))
  else
    ReqOutcome.ok res

/-- `ServerTechAPI.BASE_ERRORS`: `{404: RESTAPIUnavailableServerTechError,
405: RESTAPIServerTechError, 503: RESTAPIServerTechError}`
(classes raised without arguments, hence empty messages). -/
def BASE_ERRORS : List (Nat × ServerTechError) :=
  [(404, ServerTechError.unavailableErr ("")),
   (405, ServerTechError.restAPIErr ("")),
   (503, ServerTechError.restAPIErr (""))]

/-- The merged map `{**BASE_ERRORS, 400: RESTAPIServerTechError,
409: RESTAPIServerTechError}` of `ServerTechAPI.set_outlet_state`
(key sets are disjoint, so the dict merge is concatenation). -/
def SET_OUTLET_ERRORS : List (Nat × ServerTechError) :=
  BASE_ERRORS ++
    [(400, ServerTechError.restAPIErr ("")),
     (409, ServerTechError.restAPIErr (""))]

/-- What one invocation of a `@Decorators.get_data()`-decorated body looks
like from inside the wrapper's `try`: a returned response, a caught
`RESTAPIUnavailableServerTechError` (only class caught), or any other
exception, which propagates uncaught. -/
inductive CallOutcome (J : Type) where
  | success (r : Response J)
  | unavailable (msg : String)
  | otherError (e : ServerTechError)
deriving DecidableEq, Repr

/-- Classify a `_do_request` outcome the way the wrapper's
`except RESTAPIUnavailableServerTechError` clause does. -/
def toCallOutcome {J : Type} : ReqOutcome J → CallOutcome J
  | ReqOutcome.ok r => CallOutcome.success r
  | ReqOutcome.err (ServerTechError.unavailableErr m) =>
      CallOutcome.unavailable m
  | ReqOutcome.err e => CallOutcome.otherError e

/-- What the wrapper `inner` produces: `response.json()`, the raw falsy
response, a raised exception, or Python `None` (falling off the end when
`raise_on_timeout` is false). -/
inductive WrapResult (J : Type) where
  | jsonBody (j : J)
  | rawResponse (r : Response J)
  | raised (e : ServerTechError)
  | noneValue
deriving DecidableEq, Repr

/-- One run of the wrapper, instrumented: its result, the number of calls
made to the decorated body, and the number of `time.sleep(timeout)`
executions (total slept time is `sleeps * timeout` seconds). -/
structure RunOutcome (J : Type) where
  result : WrapResult J
  calls : Nat
  sleeps : Nat
deriving DecidableEq, Repr

/-- The code after the `while` loop of `Decorators.get_data.wrapper.inner`:
re-raise the stored exception, else raise
`RESTAPIServerTechError(f"Cannot execute request for {retries * timeout} sec.")`;
with `raise_on_timeout` false, fall through returning `None`. -/
def loopFinish {J : Type} (raise_on_timeout : Bool) (retries timeout : Nat)
    (exc : Option String) : WrapResult J :=
  if raise_on_timeout then
    match exc with
    | some m => WrapResult.raised (ServerTechError.unavailableErr m)
    | none =>
        WrapResult.raised
          (ServerTechError.restAPIErr
            ("Cannot execute request for " ++
              (toString (retries * timeout) ++ " sec.")))
  else WrapResult.noneValue

/-- The `while attempt < retries` loop of `Decorators.get_data.wrapper.inner`,
with `rem = retries - attempt` made explicit (`decorated` is indexed by the
attempt number, and `exc` is the `exception` local). -/
def get_data_go {J : Type} (retries timeout : Nat) (raise_on_timeout : Bool)
    (decorated : Nat → CallOutcome J) :
    Nat → Nat → Option String → RunOutcome J
  | _, 0, exc => ⟨loopFinish raise_on_timeout retries timeout exc, 0, 0⟩
  | attempt, rem + 1, _exc =>
    match decorated attempt with
    | CallOutcome.success r =>
        if r.truthy then ⟨WrapResult.jsonBody r.json, 1, 0⟩
        else ⟨WrapResult.rawResponse r, 1, 0⟩
    | CallOutcome.unavailable m =>
        let rest :=
          get_data_go retries timeout raise_on_timeout decorated
            (attempt + 1) rem (some m)
        ⟨rest.result, rest.calls + 1, rest.sleeps + 1⟩
    | CallOutcome.otherError e => ⟨WrapResult.raised e, 1, 0⟩

/-- `ServerTechAPI.Decorators.get_data(retries, timeout, raise_on_timeout)`
applied to a decorated body: `exception = None; attempt = 0` then the loop. -/
def get_data_run {J : Type} (retries timeout : Nat) (raise_on_timeout : Bool)
    (decorated : Nat → CallOutcome J) : RunOutcome J :=
  get_data_go retries timeout raise_on_timeout decorated 0 retries none

/-- `ServerTechAPI.get_pdu_units_info`: decorated GET of
`config/info/units` with `{**BASE_ERRORS, **{}}`, default
`retries=6, timeout=5, raise_on_timeout=True`. -/
def get_pdu_units_info {J : Type} (c : ConnParams)
    (transport : Nat → HttpRequest → Response J) : RunOutcome J :=
  get_data_run 6 5 true (fun n =>
    toCallOutcome
      (do_request c HttpMethod.get ("config/info/units") true BASE_ERRORS []
        (transport n)))

/-- `ServerTechAPI.get_pdu_system_info`: decorated GET of
`config/info/system`. -/
def get_pdu_system_info {J : Type} (c : ConnParams)
    (transport : Nat → HttpRequest → Response J) : RunOutcome J :=
  get_data_run 6 5 true (fun n =>
    toCallOutcome
      (do_request c HttpMethod.get ("config/info/system") true BASE_ERRORS []
        (transport n)))

/-- `ServerTechAPI.get_outlets`: decorated GET of `control/outlets`. -/
def get_outlets {J : Type} (c : ConnParams)
    (transport : Nat → HttpRequest → Response J) : RunOutcome J :=
  get_data_run 6 5 true (fun n =>
    toCallOutcome
      (do_request c HttpMethod.get ("control/outlets") true BASE_ERRORS []
        (transport n)))

/-- `ServerTechAPI.set_outlet_state`: also decorated with
`@Decorators.get_data()`; PATCH of `control/outlets/{outlet_id}` with body
`{"control_action": outlet_state}` and the merged error map. -/
def set_outlet_state_run {J : Type} (c : ConnParams)
    (outlet_id outlet_state : String)
    (transport : Nat → HttpRequest → Response J) : RunOutcome J :=
  get_data_run 6 5 true (fun n =>
    toCallOutcome
      (do_request c HttpMethod.patch ("control/outlets/" ++ outlet_id) true
        SET_OUTLET_ERRORS [(("control_action"), outlet_state)]
        (transport n)))

/-- Single quote character, used by the Python message
`f"State '{state}' is not supported."`. -/
def squote : String := String.singleton (Char.ofNat 39)

/-- The message of `NotSupportedServerTechError` raised by
`ServerTechOutletsStateFlow.set_outlets_state`. -/
def not_supported_msg (state : String) : String :=
  ("State " ++ (squote ++ (state ++ (squote ++ " is not supported."))))

/-- `ServerTechOutletsStateFlow.AVAILABLE_STATES`. -/
def AVAILABLE_STATES : List String := [("on"), ("off"), ("reboot")]

/-- Inner scan of Python `port.split("/")[-1]`: fold the characters,
resetting the accumulator at each slash; the final accumulator is the
token after the last slash (the whole string when there is none). -/
def lastTokenAux : List Char → List Char → List Char
  | acc, [] => acc
  | acc, c :: rest =>
      if c = '/' then lastTokenAux [] rest
      else lastTokenAux (acc ++ [c]) rest

/-- Python `s.replace("PS", "")`: left-to-right scan removing every
non-overlapping occurrence of the two-character pattern `PS`. -/
def removePS : List Char → List Char
  | [] => []
  | [c] => [c]
  | c1 :: c2 :: rest =>
      if c1 = 'P' ∧ c2 = 'S' then removePS rest
      else c1 :: removePS (c2 :: rest)

/-- Whether the pattern `PS` occurs in the character list. -/
def containsPS : List Char → Bool
  | [] => false
  | [_] => false
  | c1 :: c2 :: rest =>
      if c1 = 'P' ∧ c2 = 'S' then true else containsPS (c2 :: rest)

/-- The per-port body of `ServerTechOutletsStateFlow._ports_to_outlet_ids`:
`port.split("/")[-1].replace("PS", "")`. -/
def portToOutletId (port : String) : String :=
  String.mk (removePS (lastTokenAux [] port.data))

/-- `ServerTechOutletsStateFlow._ports_to_outlet_ids`. -/
def ports_to_outlet_ids (ports : List String) : List String :=
  ports.map portToOutletId

/-- Rendering of the SPEC's words (not of the source) for comparison:
take the token after the last slash and remove `"PS"` only when it is a
literal prefix of that token. -/
def specStripLiteralPS : List Char → List Char
  | 'P' :: 'S' :: rest => rest
  | l => l

/-- The spec-literal per-port conversion: last token, then strip a single
leading `"PS"`. -/
def specPortToOutletId (port : String) : String :=
  String.mk (specStripLiteralPS (lastTokenAux [] port.data))

/-- Result of one run of `ServerTechOutletsStateFlow.set_outlets_state`:
the ordered trace of `api.set_outlet_state(outlet_id=…, outlet_state=…)`
calls actually issued, and the exception that terminated the run
(`none` = normal return). -/
structure FlowResult where
  calls : List (String × String)
  error : Option ServerTechError
deriving DecidableEq, Repr

/-- The `for outlet_id in outlets:` loop of `set_outlets_state`.
`apiResp k` is the outcome of the `k`-th issued call (`none` = success,
`some e` = the call raised `e`); a raised error propagates immediately,
aborting the remaining iterations. -/
def run_outlet_calls (outlets : List String) (state : String)
    (apiResp : Nat → Option ServerTechError) (k : Nat) : FlowResult :=
  match outlets with
  | [] => ⟨[], none⟩
  | oid :: rest =>
    match apiResp k with
    | some e => ⟨[(oid, state)], some e⟩
    | none =>
        let r := run_outlet_calls rest state apiResp (k + 1)
        ⟨(oid, state) :: r.calls, r.error⟩

/-- `ServerTechOutletsStateFlow.set_outlets_state`: validate the state
against `AVAILABLE_STATES` (raising `NotSupportedServerTechError` before
any network call), convert the ports, then issue one call per outlet. -/
def set_outlets_state (ports : List String) (state : String)
    (apiResp : Nat → Option ServerTechError) : FlowResult :=
  if (AVAILABLE_STATES.contains state) = false then
    ⟨[], some (ServerTechError.notSupportedErr (not_supported_msg state))⟩
  else
    run_outlet_calls (ports_to_outlet_ids ports) state apiResp 0

/-- A JSON unit entry of `GET config/info/units`, with the two keys
`ServerTechHandler.get_pdu_info` reads (`none` = key absent). -/
structure UnitInfo where
  model_number : Option String
  product_serial_number : Option String
deriving DecidableEq, Repr

/-- The JSON object of `GET config/info/system`, with the one key read. -/
structure SystemInfo where
  firmware : Option String
deriving DecidableEq, Repr

/-- Python dict assignment `d[k] = v` on the insertion-ordered
association-list model: replace in place when the key exists, else append. -/
def dictSet (d : List (String × String)) (k v : String) :
    List (String × String) :=
  if (d.map Prod.fst).contains k then
    d.map (fun p => if p.1 = k then (k, v) else p)
  else d ++ [(k, v)]

/-- `d.get(k)` on the association-list model. -/
def dictGet (d : List (String × String)) (k : String) : Option String :=
  (d.find? (fun p => p.1 == k)).map (fun p => p.2)

/-- One iteration of the `for unit in units_info:` loop of
`ServerTechHandler.get_pdu_info`:
`pdu_info.update({"model": unit.get("model_number", ""),
"serial": unit.get("product_serial_number", "")})`. -/
def unit_step (d : List (String × String)) (u : UnitInfo) :
    List (String × String) :=
  dictSet (dictSet d ("model") ((u.model_number).getD ("")))
    ("serial") ((u.product_serial_number).getD (""))

/-- `ServerTechHandler.get_pdu_info` (same dict-building logic as
`cloudshell` generation `ServerTechAPI.get_pdu_info`), applied to the
parsed units array and system object. -/
def get_pdu_info (units : List UnitInfo) (system : SystemInfo) :
    List (String × String) :=
  dictSet (units.foldl unit_step []) ("fw") ((system.firmware).getD (""))

/-- Field names of `BaseAPIClient`, for the `attrs` setter model. -/
inductive FieldName where
  | address
  | username
  | password
  | session
  | scheme
  | port
  | verify_ssl
deriving DecidableEq, Repr

/-- A value assigned to an attribute. -/
inductive AttrValue where
  | strVal (s : String)
  | natVal (n : Nat)
  | boolVal (b : Bool)
deriving DecidableEq, Repr

/-- Attribute assignment on a `BaseAPIClient` instance: every field is
declared with `on_setattr=frozen`, so any assignment raises
`FrozenAttributeError` and the instance is unchanged. -/
def conn_setattr (_c : ConnParams) (_f : FieldName) (_v : AttrValue) :
    Except String ConnParams :=
  Except.error ("FrozenAttributeError")

/-- `BaseAPIClient._do_get` threaded with the client state: the method body
contains no field assignment, so the post-state is the input client. -/
def do_get_st {J : Type} (c : ConnParams) (path : String)
    (raise_for_status : Bool) (emap : List (Nat × ServerTechError))
    (transport : HttpRequest → Response J) : ReqOutcome J × ConnParams :=
  (do_request c HttpMethod.get path raise_for_status emap [] transport, c)

/-- `BaseAPIClient._do_post` threaded with the client state. -/
def do_post_st {J : Type} (c : ConnParams) (path : String)
    (raise_for_status : Bool) (emap : List (Nat × ServerTechError))
    (body : List (String × String))
    (transport : HttpRequest → Response J) : ReqOutcome J × ConnParams :=
  (do_request c HttpMethod.post path raise_for_status emap body transport, c)

/-- `BaseAPIClient._do_put` threaded with the client state. -/
def do_put_st {J : Type} (c : ConnParams) (path : String)
    (raise_for_status : Bool) (emap : List (Nat × ServerTechError))
    (body : List (String × String))
    (transport : HttpRequest → Response J) : ReqOutcome J × ConnParams :=
  (do_request c HttpMethod.put path raise_for_status emap body transport, c)

/-- `BaseAPIClient._do_patch` threaded with the client state. -/
def do_patch_st {J : Type} (c : ConnParams) (path : String)
    (raise_for_status : Bool) (emap : List (Nat × ServerTechError))
    (body : List (String × String))
    (transport : HttpRequest → Response J) : ReqOutcome J × ConnParams :=
  (do_request c HttpMethod.patch path raise_for_status emap body transport, c)

/-- `BaseAPIClient._do_delete` threaded with the client state. -/
def do_delete_st {J : Type} (c : ConnParams) (path : String)
    (raise_for_status : Bool) (emap : List (Nat × ServerTechError))
    (transport : HttpRequest → Response J) : ReqOutcome J × ConnParams :=
  (do_request c HttpMethod.delete path raise_for_status emap [] transport, c)

/-- `ServerTechAPI.get_pdu_units_info` threaded with the client state. -/
def get_pdu_units_info_st {J : Type} (c : ConnParams)
    (transport : Nat → HttpRequest → Response J) :
    RunOutcome J × ConnParams :=
  (get_pdu_units_info c transport, c)

/-- `ServerTechAPI.get_pdu_system_info` threaded with the client state. -/
def get_pdu_system_info_st {J : Type} (c : ConnParams)
    (transport : Nat → HttpRequest → Response J) :
    RunOutcome J × ConnParams :=
  (get_pdu_system_info c transport, c)

/-- `ServerTechAPI.get_outlets` threaded with the client state. -/
def get_outlets_st {J : Type} (c : ConnParams)
    (transport : Nat → HttpRequest → Response J) :
    RunOutcome J × ConnParams :=
  (get_outlets c transport, c)

/-- `ServerTechAPI.set_outlet_state` threaded with the client state. -/
def set_outlet_state_st {J : Type} (c : ConnParams)
    (outlet_id outlet_state : String)
    (transport : Nat → HttpRequest → Response J) :
    RunOutcome J × ConnParams :=
  (set_outlet_state_run c outlet_id outlet_state transport, c)

/-! ## Helper lemmas about the retry loop -/

/-- Running the loop through `j` consecutive unavailable attempts adds `j`
calls and `j` sleeps and continues at attempt `attempt + j` with the last
caught message stored. -/
theorem get_data_go_skip {J : Type} (retries timeout : Nat) (ro : Bool)
    (dec : Nat → CallOutcome J) (msg : Nat → String) :
    ∀ (j attempt rem : Nat) (exc : Option String),
      (∀ i, i < j →
        dec (attempt + i) = CallOutcome.unavailable (msg (attempt + i))) →
      get_data_go retries timeout ro dec attempt (j + rem) exc =
        ⟨(get_data_go retries timeout ro dec (attempt + j) rem
            (if j = 0 then exc else some (msg (attempt + j - 1)))).result,
         (get_data_go retries timeout ro dec (attempt + j) rem
            (if j = 0 then exc else some (msg (attempt + j - 1)))).calls + j,
         (get_data_go retries timeout ro dec (attempt + j) rem
            (if j = 0 then exc else some (msg (attempt + j - 1)))).sleeps + j⟩ := by
  intro j
  induction j with
  | zero =>
      intro attempt rem exc _h
      simp
  | succ j ih =>
      intro attempt rem exc h
      have hstep : dec attempt = CallOutcome.unavailable (msg attempt) := by
        have h0 := h 0 (Nat.succ_pos j)
        simpa using h0
      have harith : j + 1 + rem = (j + rem) + 1 := by omega
      rw [harith]
      have hshift : ∀ i, i < j →
          dec (attempt + 1 + i) = CallOutcome.unavailable (msg (attempt + 1 + i)) := by
        intro i hi
        have hh := h (i + 1) (by omega)
        have e : attempt + (i + 1) = attempt + 1 + i := by omega
        rw [e] at hh
        exact hh
      have hexc : (if j = 0 then some (msg attempt)
            else some (msg (attempt + 1 + j - 1))) = some (msg (attempt + j)) := by
        by_cases hj : j = 0
        · subst hj; simp
        · have e : attempt + 1 + j - 1 = attempt + j := by omega
          simp [hj, e]
      have hexc2 : (if j + 1 = 0 then exc
            else some (msg (attempt + (j + 1) - 1))) = some (msg (attempt + j)) := by
        have e : attempt + (j + 1) - 1 = attempt + j := by omega
        simp [e]
      have eatt : attempt + 1 + j = attempt + (j + 1) := by omega
      simp only [get_data_go, hstep]
      rw [ih (attempt + 1) rem (some (msg attempt)) hshift]
      rw [hexc, eatt, hexc2]
      simp only [RunOutcome.mk.injEq, true_and, and_true, eq_self_iff_true]
      omega

/-- When every attempt raises the unavailable error and `0 < retries`, the
wrapper makes exactly `retries` calls, sleeps `retries` times, and
re-raises the last caught unavailable error. -/
theorem get_data_run_all_unavailable {J : Type} (retries timeout : Nat)
    (dec : Nat → CallOutcome J) (msg : Nat → String)
    (h : ∀ n, dec n = CallOutcome.unavailable (msg n)) (hr : 0 < retries) :
    get_data_run retries timeout true dec =
      ⟨WrapResult.raised (ServerTechError.unavailableErr (msg (retries - 1))),
       retries, retries⟩ := by
  have hskip := get_data_go_skip retries timeout true dec msg retries 0 0 none
    (fun i _ => h (0 + i))
  have harith : retries + 0 = retries := by omega
  rw [harith] at hskip
  unfold get_data_run
  rw [hskip]
  have hne : retries ≠ 0 := by omega
  simp only [hne, if_false, get_data_go, loopFinish, if_true]
  simp

/-- A transport answering 404 to every request makes every decorated read
attempt raise `RESTAPIUnavailableServerTechError` (raised as a class,
hence with the empty message). -/
theorem read_attempt_unavailable_of_404 {J : Type} (c : ConnParams)
    (m : HttpMethod) (path : String) (body : List (String × String))
    (tr : HttpRequest → Response J)
    (h404 : ∀ req, (tr req).status_code = 404) :
    toCallOutcome (do_request c m path true BASE_ERRORS body tr) =
      CallOutcome.unavailable ("") := by
  have hres := h404 ⟨m, request_url c path, body⟩
  simp [do_request, isHTTPError, mapLookup, BASE_ERRORS, toCallOutcome, hres]

/-- C1: with the retry decorator (`retries` attempts, `timeout` seconds of
sleep after each unavailable failure), an always-unavailable body leads to
exactly `retries` attempts, at least `(retries-1) * timeout` seconds of
total sleep, and the re-raising of the last caught unavailable error;
when no unavailable error was captured (only possible when the loop body
never ran, `retries = 0`), a generic `RESTAPIServerTechError` stating the
`retries * timeout` seconds budget is raised instead.  The three reads
`get_pdu_units_info`, `get_pdu_system_info`, `get_outlets` (defaults
`retries = 6`, `timeout = 5`) behave accordingly under a transport that
answers 404 to every request. -/
theorem get_data_retry_exhaustion {J : Type} (retries timeout : Nat)
    (msg : Nat → String) (c : ConnParams)
    (tr : Nat → HttpRequest → Response J)
    (hr : 0 < retries)
    (h404 : ∀ n req, (tr n req).status_code = 404) :
    (get_data_run retries timeout true
        (fun n => CallOutcome.unavailable (J := J) (msg n))).result
      = WrapResult.raised (ServerTechError.unavailableErr (msg (retries - 1)))
    ∧ (get_data_run retries timeout true
        (fun n => CallOutcome.unavailable (J := J) (msg n))).calls = retries
    ∧ (retries - 1) * timeout ≤
        (get_data_run retries timeout true
          (fun n => CallOutcome.unavailable (J := J) (msg n))).sleeps * timeout
    ∧ (get_data_run 0 timeout true
        (fun n => CallOutcome.unavailable (J := J) (msg n))).result
      = WrapResult.raised (ServerTechError.restAPIErr
          ("Cannot execute request for " ++ (toString (0 * timeout) ++ " sec.")))
    ∧ get_pdu_units_info c tr =
        ⟨WrapResult.raised (ServerTechError.unavailableErr ("")), 6, 6⟩
    ∧ get_pdu_system_info c tr =
        ⟨WrapResult.raised (ServerTechError.unavailableErr ("")), 6, 6⟩
    ∧ get_outlets c tr =
        ⟨WrapResult.raised (ServerTechError.unavailableErr ("")), 6, 6⟩ := by
  have hall := get_data_run_all_unavailable retries timeout
    (fun n => CallOutcome.unavailable (J := J) (msg n)) msg (fun n => rfl) hr
  refine ⟨by rw [hall], by rw [hall], ?_, ?_, ?_, ?_, ?_⟩
  · rw [hall]
    exact Nat.mul_le_mul_right timeout (Nat.sub_le retries 1)
  · rfl
  · exact get_data_run_all_unavailable 6 5 _ (fun _ => ("")) (fun n =>
      read_attempt_unavailable_of_404 c HttpMethod.get ("config/info/units")
        [] (tr n) (fun req => h404 n req)) (by omega)
  · exact get_data_run_all_unavailable 6 5 _ (fun _ => ("")) (fun n =>
      read_attempt_unavailable_of_404 c HttpMethod.get ("config/info/system")
        [] (tr n) (fun req => h404 n req)) (by omega)
  · exact get_data_run_all_unavailable 6 5 _ (fun _ => ("")) (fun n =>
      read_attempt_unavailable_of_404 c HttpMethod.get ("control/outlets")
        [] (tr n) (fun req => h404 n req)) (by omega)

/-- Concrete witness for `get_data_retry_exhaustion`:
`retries = 6`, `timeout = 5`, a transport answering 404 always. -/
theorem get_data_retry_exhaustion_witness :
    (0 < 6 ∧ (∀ (n : Nat) (req : HttpRequest),
        (((fun (_ : Nat) (_ : HttpRequest) => (⟨404, 0⟩ : Response Nat))) n req).status_code = 404))
    ∧ ((get_data_run 6 5 true
          (fun n => CallOutcome.unavailable (J := Nat) (toString n))).result
        = WrapResult.raised (ServerTechError.unavailableErr (toString (6 - 1)))
      ∧ (get_data_run 6 5 true
          (fun n => CallOutcome.unavailable (J := Nat) (toString n))).calls = 6
      ∧ (6 - 1) * 5 ≤
          (get_data_run 6 5 true
            (fun n => CallOutcome.unavailable (J := Nat) (toString n))).sleeps * 5
      ∧ (get_data_run 0 5 true
          (fun n => CallOutcome.unavailable (J := Nat) (toString n))).result
        = WrapResult.raised (ServerTechError.restAPIErr
            ("Cannot execute request for " ++ (toString (0 * 5) ++ " sec.")))
      ∧ get_pdu_units_info ⟨("192.168.30.128"), ("u"), ("p"), ("https"), 443, false⟩
            (fun (_ : Nat) (_ : HttpRequest) => (⟨404, 0⟩ : Response Nat)) =
          ⟨WrapResult.raised (ServerTechError.unavailableErr ("")), 6, 6⟩
      ∧ get_pdu_system_info ⟨("192.168.30.128"), ("u"), ("p"), ("https"), 443, false⟩
            (fun (_ : Nat) (_ : HttpRequest) => (⟨404, 0⟩ : Response Nat)) =
          ⟨WrapResult.raised (ServerTechError.unavailableErr ("")), 6, 6⟩
      ∧ get_outlets ⟨("192.168.30.128"), ("u"), ("p"), ("https"), 443, false⟩
            (fun (_ : Nat) (_ : HttpRequest) => (⟨404, 0⟩ : Response Nat)) =
          ⟨WrapResult.raised (ServerTechError.unavailableErr ("")), 6, 6⟩) :=
  ⟨⟨by decide, fun n req => rfl⟩,
    get_data_retry_exhaustion 6 5 (fun n => toString n)
      ⟨("192.168.30.128"), ("u"), ("p"), ("https"), 443, false⟩
      (fun _ _ => ⟨404, 0⟩) (by decide) (fun n req => rfl)⟩

/-- C4: when the decorated body succeeds on attempt `k` (of at most
`retries`), the wrapper performs exactly `k` attempts (none after the
success), slept only for the `k - 1` preceding failures, and returns the
parsed JSON body, or the raw response unchanged when it is falsy. -/
theorem get_data_success_stops {J : Type} (retries timeout k : Nat)
    (msg : Nat → String) (r0 : Response J) (dec : Nat → CallOutcome J)
    (hk1 : 1 ≤ k) (hk2 : k ≤ retries)
    (hfail : ∀ i, i < k - 1 → dec i = CallOutcome.unavailable (msg i))
    (hsucc : dec (k - 1) = CallOutcome.success r0) :
    get_data_run retries timeout true dec =
      ⟨if r0.truthy then WrapResult.jsonBody r0.json
        else WrapResult.rawResponse r0, k, k - 1⟩ := by
  have hskip := get_data_go_skip retries timeout true dec msg (k - 1) 0
    (retries - (k - 1)) none
    (fun i hi => by simpa using hfail i (by omega))
  have harith : k - 1 + (retries - (k - 1)) = retries := by omega
  rw [harith] at hskip
  unfold get_data_run
  rw [hskip]
  obtain ⟨m, hm⟩ : ∃ m, retries - (k - 1) = m + 1 :=
    ⟨retries - (k - 1) - 1, by omega⟩
  rw [hm]
  have hz : (0 : Nat) + (k - 1) = k - 1 := by omega
  rw [hz]
  simp only [get_data_go, hsucc]
  by_cases ht : r0.truthy
  · simp only [ht, if_true, RunOutcome.mk.injEq, true_and, and_true,
      eq_self_iff_true]
    omega
  · simp only [ht, if_false, Bool.false_eq_true, RunOutcome.mk.injEq,
      true_and, and_true, eq_self_iff_true]
    omega

/-- Concrete witness for `get_data_success_stops`: two unavailable
attempts, then success on attempt 3 of 6. -/
theorem get_data_success_stops_witness :
    (1 ≤ 3 ∧ 3 ≤ 6
      ∧ (∀ i, i < 3 - 1 →
          (fun i => if i < 2 then CallOutcome.unavailable (toString i)
            else CallOutcome.success (⟨200, (7 : Nat)⟩ : Response Nat)) i
            = CallOutcome.unavailable (toString i))
      ∧ (fun i => if i < 2 then CallOutcome.unavailable (toString i)
            else CallOutcome.success (⟨200, (7 : Nat)⟩ : Response Nat)) (3 - 1)
          = CallOutcome.success (⟨200, (7 : Nat)⟩ : Response Nat))
    ∧ get_data_run 6 5 true
        (fun i => if i < 2 then CallOutcome.unavailable (toString i)
          else CallOutcome.success (⟨200, (7 : Nat)⟩ : Response Nat)) =
      ⟨if (⟨200, (7 : Nat)⟩ : Response Nat).truthy
          then WrapResult.jsonBody (⟨200, (7 : Nat)⟩ : Response Nat).json
          else WrapResult.rawResponse (⟨200, (7 : Nat)⟩ : Response Nat),
        3, 3 - 1⟩ :=
  ⟨⟨by decide, by decide, by decide, by decide⟩,
    get_data_success_stops 6 5 3 (fun i => toString i) ⟨200, 7⟩ _
      (by decide) (by decide) (by decide) (by decide)⟩

/-- A transport answering a fixed non-transient mapped status makes the
decorated `set_outlet_state` attempt raise the (non-unavailable) mapped
`RESTAPIServerTechError`, which the wrapper does not catch. -/
theorem set_outlet_attempt_other_of_nontransient {J : Type} (c : ConnParams)
    (oid st : String) (code : Nat)
    (tr : HttpRequest → Response J)
    (hcode : code = 400 ∨ code = 405 ∨ code = 409 ∨ code = 503)
    (hstat : ∀ req, (tr req).status_code = code) :
    toCallOutcome
      (do_request c HttpMethod.patch ("control/outlets/" ++ oid) true
        SET_OUTLET_ERRORS [(("control_action"), st)] tr) =
      CallOutcome.otherError (ServerTechError.restAPIErr ("")) := by
  have hres := hstat ⟨HttpMethod.patch,
    request_url c ("control/outlets/" ++ oid), [(("control_action"), st)]⟩
  rcases hcode with h | h | h | h <;> rw [h] at hres <;>
    simp [do_request, isHTTPError, mapLookup, SET_OUTLET_ERRORS, BASE_ERRORS,
      toCallOutcome, hres]

/-- C3 (amended): `set_outlet_state` is itself wrapped by the retry
decorator, so its failure handling splits by mapped class: statuses
400, 405, 409 and 503 map to `RESTAPIServerTechError` and are raised
immediately — a single attempt and no sleep; status 404 maps to
`RESTAPIUnavailableServerTechError` and is retried like the reads
(6 attempts with a sleep after each) before being re-raised. -/
theorem set_outlet_state_retry_split {J : Type} (c : ConnParams)
    (oid st : String) (code : Nat)
    (tr tr404 : Nat → HttpRequest → Response J)
    (hcode : code = 400 ∨ code = 405 ∨ code = 409 ∨ code = 503)
    (hstat : ∀ n req, (tr n req).status_code = code)
    (h404 : ∀ n req, (tr404 n req).status_code = 404) :
    set_outlet_state_run c oid st tr =
      ⟨WrapResult.raised (ServerTechError.restAPIErr ("")), 1, 0⟩
    ∧ set_outlet_state_run c oid st tr404 =
      ⟨WrapResult.raised (ServerTechError.unavailableErr ("")), 6, 6⟩ := by
  constructor
  · have hdec := set_outlet_attempt_other_of_nontransient c oid st code
      (tr 0) hcode (fun req => hstat 0 req)
    show get_data_run 6 5 true _ = _
    unfold get_data_run
    show get_data_go 6 5 true _ 0 (5 + 1) none = _
    simp only [get_data_go, hdec]
  · refine get_data_run_all_unavailable 6 5 _ (fun _ => ("")) ?_ (by omega)
    intro n
    have hattempt : ∀ req, (tr404 n req).status_code = 404 := fun req => h404 n req
    have hres := hattempt ⟨HttpMethod.patch,
      request_url c ("control/outlets/" ++ oid), [(("control_action"), st)]⟩
    simp [do_request, isHTTPError, mapLookup, SET_OUTLET_ERRORS, BASE_ERRORS,
      toCallOutcome, hres]

/-- Concrete witness for `set_outlet_state_retry_split`: HTTP 409
(conflict) raised immediately without retry; HTTP 404 retried 6 times. -/
theorem set_outlet_state_retry_split_witness :
    ((409 = 400 ∨ 409 = 405 ∨ 409 = 409 ∨ 409 = 503)
      ∧ (∀ (n : Nat) (req : HttpRequest),
          ((fun (_ : Nat) (_ : HttpRequest) => (⟨409, 0⟩ : Response Nat)) n req).status_code = 409)
      ∧ (∀ (n : Nat) (req : HttpRequest),
          ((fun (_ : Nat) (_ : HttpRequest) => (⟨404, 0⟩ : Response Nat)) n req).status_code = 404))
    ∧ set_outlet_state_run ⟨("192.168.30.128"), ("u"), ("p"), ("https"), 443, false⟩
        ("4") ("on") (fun (_ : Nat) (_ : HttpRequest) => (⟨409, 0⟩ : Response Nat)) =
      ⟨WrapResult.raised (ServerTechError.restAPIErr ("")), 1, 0⟩
    ∧ set_outlet_state_run ⟨("192.168.30.128"), ("u"), ("p"), ("https"), 443, false⟩
        ("4") ("on") (fun (_ : Nat) (_ : HttpRequest) => (⟨404, 0⟩ : Response Nat)) =
      ⟨WrapResult.raised (ServerTechError.unavailableErr ("")), 6, 6⟩ :=
  ⟨⟨by decide, fun n req => rfl, fun n req => rfl⟩,
    (set_outlet_state_retry_split
      ⟨("192.168.30.128"), ("u"), ("p"), ("https"), 443, false⟩ ("4") ("on") 409
      (fun _ _ => ⟨409, 0⟩) (fun _ _ => ⟨404, 0⟩)
      (by decide) (fun n req => rfl) (fun n req => rfl)).1,
    (set_outlet_state_retry_split
      ⟨("192.168.30.128"), ("u"), ("p"), ("https"), 443, false⟩ ("4") ("on") 409
      (fun _ _ => ⟨409, 0⟩) (fun _ _ => ⟨404, 0⟩)
      (by decide) (fun n req => rfl) (fun n req => rfl)).2⟩

/-- C3 counterexample: on a PATCH whose every attempt yields HTTP 404 (a
mapped status), `set_outlet_state` does NOT fail immediately without
retry: it makes 6 attempts and sleeps 6 times, because the 404-mapped
error is the unavailable (transient) class caught by its own
`@Decorators.get_data()` wrapper. -/
theorem set_outlet_state_404_counterexample :
    (set_outlet_state_run (J := Nat)
        ⟨("192.168.30.128"), ("u"), ("p"), ("https"), 443, false⟩
        ("4") ("on") (fun _ _ => ⟨404, 0⟩)).calls = 6
    ∧ (set_outlet_state_run (J := Nat)
        ⟨("192.168.30.128"), ("u"), ("p"), ("https"), 443, false⟩
        ("4") ("on") (fun _ _ => ⟨404, 0⟩)).sleeps = 6
    ∧ ¬ ((set_outlet_state_run (J := Nat)
        ⟨("192.168.30.128"), ("u"), ("p"), ("https"), 443, false⟩
        ("4") ("on") (fun _ _ => ⟨404, 0⟩)).calls = 1
      ∧ (set_outlet_state_run (J := Nat)
        ⟨("192.168.30.128"), ("u"), ("p"), ("https"), 443, false⟩
        ("4") ("on") (fun _ _ => ⟨404, 0⟩)).sleeps = 0) := by
  refine ⟨?_, ?_, ?_⟩ <;> decide

/-! ## Helper lemmas about the port-to-outlet-id conversion -/

/-- Scanning past a slash resets the accumulator: the result only depends
on what follows the last slash. -/
theorem lastTokenAux_slash :
    ∀ (l1 acc l2 : List Char),
      lastTokenAux acc (l1 ++ '/' :: l2) = lastTokenAux [] l2 := by
  intro l1
  induction l1 with
  | nil =>
      intro acc l2
      simp [lastTokenAux]
  | cons c l1 ih =>
      intro acc l2
      simp only [List.cons_append, lastTokenAux]
      by_cases hc : c = '/'
      · simp [hc, ih]
      · simp [hc, ih]

/-- Scanning a slash-free suffix just appends it to the accumulator. -/
theorem lastTokenAux_no_slash :
    ∀ (l : List Char) (acc : List Char), (∀ c ∈ l, c ≠ '/') →
      lastTokenAux acc l = acc ++ l := by
  intro l
  induction l with
  | nil => intro acc _; simp [lastTokenAux]
  | cons c l ih =>
      intro acc h
      have hc : c ≠ '/' := h c (List.mem_cons_self c l)
      have hrest : ∀ d ∈ l, d ≠ '/' := fun d hd => h d (List.mem_cons_of_mem c hd)
      simp [lastTokenAux, hc, ih (acc ++ [c]) hrest]

/-- `removePS` leaves a list without any `PS` occurrence unchanged. -/
theorem removePS_of_not_containsPS :
    ∀ l : List Char, containsPS l = false → removePS l = l := by
  intro l
  induction l with
  | nil => intro _; rfl
  | cons c1 tl ih =>
      intro h
      cases tl with
      | nil => rfl
      | cons c2 rest =>
          by_cases hPS : c1 = 'P' ∧ c2 = 'S'
          · simp [containsPS, hPS] at h
          · have h2 : containsPS (c2 :: rest) = false := by
              simpa [containsPS, hPS] using h
            simp [removePS, hPS, ih h2]

/-- C2 counterexample: the source removes EVERY occurrence of `"PS"`
(Python `str.replace`), not just a literal prefix.  On the port
`"h/PS1PS2"` the code yields `"12"`, while removing only the literal
prefix `"PS"` of the last token would yield `"1PS2"`. -/
theorem ports_to_outlet_ids_counterexample :
    ports_to_outlet_ids [("h/PS1PS2")] ≠ [specPortToOutletId ("h/PS1PS2")]
    ∧ ports_to_outlet_ids [("h/PS1PS2")] = [("12")]
    ∧ specPortToOutletId ("h/PS1PS2") = ("1PS2") := by
  refine ⟨?_, ?_, ?_⟩ <;> decide

/-- C2 (amended): `_ports_to_outlet_ids` preserves length and order, each
element being the token after the last `/` with every occurrence of the
substring `"PS"` removed; in particular, for every port of the form
`"<host>/PS<n>"` where `<n>` contains no `/` and no `"PS"` occurrence, the
result for that port is exactly `<n>`. -/
theorem ports_to_outlet_ids_amended (ports : List String) (host n : String)
    (h1 : containsPS n.data = false)
    (h2 : ∀ c ∈ n.data, c ≠ '/') :
    (ports_to_outlet_ids ports).length = ports.length
    ∧ ports_to_outlet_ids ports = ports.map portToOutletId
    ∧ portToOutletId ((host ++ ("/PS")) ++ n) = n := by
  refine ⟨by simp [ports_to_outlet_ids], rfl, ?_⟩
  have hdata : ((host ++ ("/PS")) ++ n).data
      = host.data ++ ('/' :: ('P' :: ('S' :: n.data))) := by
    rw [String.data_append, String.data_append, List.append_assoc]
    rfl
  have hns : ∀ c ∈ ('P' :: ('S' :: n.data)), c ≠ '/' := by
    intro c hc
    rcases List.mem_cons.mp hc with h | hc2
    · subst h; decide
    · rcases List.mem_cons.mp hc2 with h | hc3
      · subst h; decide
      · exact h2 c hc3
  unfold portToOutletId
  rw [hdata, lastTokenAux_slash, lastTokenAux_no_slash _ _ hns,
    List.nil_append]
  have hrem : removePS ('P' :: ('S' :: n.data)) = removePS n.data := by
    simp [removePS]
  rw [hrem, removePS_of_not_containsPS n.data h1]

/-- Concrete witness for `ports_to_outlet_ids_amended`, at the spec's own
example ports. -/
theorem ports_to_outlet_ids_amended_witness :
    (containsPS ("4").data = false ∧ (∀ c ∈ ("4").data, c ≠ '/'))
    ∧ (ports_to_outlet_ids
        [("192.168.30.128/PS4"), ("192.168.30.128/PS6")]).length =
      [("192.168.30.128/PS4"), ("192.168.30.128/PS6")].length
    ∧ ports_to_outlet_ids [("192.168.30.128/PS4"), ("192.168.30.128/PS6")] =
      [("192.168.30.128/PS4"), ("192.168.30.128/PS6")].map portToOutletId
    ∧ portToOutletId ((("192.168.30.128") ++ ("/PS")) ++ ("4")) = ("4") :=
  ⟨⟨by decide, by decide⟩,
    ports_to_outlet_ids_amended
      [("192.168.30.128/PS4"), ("192.168.30.128/PS6")]
      ("192.168.30.128") ("4") (by decide) (by decide)⟩

/-! ## Theorems about the outlet state flow -/

/-- C5: an unsupported state raises `NotSupportedServerTechError` with the
source's message, and no `set_outlet_state` call is issued at all. -/
theorem set_outlets_state_invalid_state (ports : List String) (state : String)
    (apiResp : Nat → Option ServerTechError)
    (h : (AVAILABLE_STATES.contains state) = false) :
    set_outlets_state ports state apiResp =
      ⟨[], some (ServerTechError.notSupportedErr (not_supported_msg state))⟩ := by
  unfold set_outlets_state
  rw [if_pos h]

/-- Concrete witness for `set_outlets_state_invalid_state`. -/
theorem set_outlets_state_invalid_state_witness :
    (AVAILABLE_STATES.contains ("banana")) = false
    ∧ set_outlets_state [("192.168.30.128/PS4")] ("banana")
        (fun _ => none) =
      ⟨[], some (ServerTechError.notSupportedErr (not_supported_msg ("banana")))⟩ :=
  ⟨by decide,
    set_outlets_state_invalid_state [("192.168.30.128/PS4")] ("banana")
      (fun _ => none) (by decide)⟩

/-- When every issued call succeeds, the loop issues exactly one call per
outlet, in order, and returns normally. -/
theorem run_outlet_calls_all_ok :
    ∀ (outlets : List String) (state : String)
      (apiResp : Nat → Option ServerTechError) (k0 : Nat),
      (∀ i, apiResp i = none) →
      run_outlet_calls outlets state apiResp k0 =
        ⟨outlets.map (fun oid => (oid, state)), none⟩ := by
  intro outlets
  induction outlets with
  | nil => intro s a k0 _h; rfl
  | cons oid rest ih =>
      intro s a k0 h
      simp [run_outlet_calls, h k0, ih s a (k0 + 1) h]

/-- When the `k`-th issued call (0-based) raises and the earlier ones
succeed, the loop's trace is exactly the first `k + 1` outlets (the
earlier successes are not rolled back, the failing call is issued) and
the error propagates immediately, so no later outlet is called. -/
theorem run_outlet_calls_fail_at :
    ∀ (outlets : List String) (state : String)
      (apiResp : Nat → Option ServerTechError) (k0 k : Nat)
      (e : ServerTechError),
      k < outlets.length →
      (∀ i, i < k → apiResp (k0 + i) = none) →
      apiResp (k0 + k) = some e →
      run_outlet_calls outlets state apiResp k0 =
        ⟨(outlets.take (k + 1)).map (fun oid => (oid, state)), some e⟩ := by
  intro outlets
  induction outlets with
  | nil =>
      intro s a k0 k e hk
      simp at hk
  | cons oid rest ih =>
      intro s a k0 k e hk hpre hfail
      cases k with
      | zero =>
          have h0 : a k0 = some e := by simpa using hfail
          simp [run_outlet_calls, h0]
      | succ j =>
          have h0 : a k0 = none := by
            have hp := hpre 0 (by omega)
            simpa using hp
          have hpre2 : ∀ i, i < j → a (k0 + 1 + i) = none := by
            intro i hi
            have hp := hpre (i + 1) (by omega)
            have e2 : k0 + (i + 1) = k0 + 1 + i := by omega
            rw [e2] at hp
            exact hp
          have hfail2 : a (k0 + 1 + j) = some e := by
            have e2 : k0 + 1 + j = k0 + (j + 1) := by omega
            rw [e2]
            exact hfail
          have hk2 : j < rest.length := by
            simp at hk
            omega
          simp [run_outlet_calls, h0, ih s a (k0 + 1) j e hk2 hpre2 hfail2]

/-- C6: for a supported state, `set_outlets_state` issues exactly one
`set_outlet_state` call per converted outlet ID, sequentially in input
order; if the `k`-th call (0-based) raises, the calls already made stay
made (no rollback), the error propagates immediately, and the outlets
after position `k` are never called. -/
theorem set_outlets_state_sequential (ports : List String) (state : String)
    (apiOk apiFail : Nat → Option ServerTechError) (k : Nat)
    (e : ServerTechError)
    (hstate : AVAILABLE_STATES.contains state = true)
    (hOk : ∀ i, apiOk i = none)
    (hk : k < (ports_to_outlet_ids ports).length)
    (hpre : ∀ i, i < k → apiFail i = none)
    (hfail : apiFail k = some e) :
    set_outlets_state ports state apiOk =
      ⟨(ports_to_outlet_ids ports).map (fun oid => (oid, state)), none⟩
    ∧ set_outlets_state ports state apiFail =
      ⟨((ports_to_outlet_ids ports).take (k + 1)).map
          (fun oid => (oid, state)), some e⟩ := by
  have hneg : ¬ ((AVAILABLE_STATES.contains state) = false) := by
    rw [hstate]
    simp
  constructor
  · unfold set_outlets_state
    rw [if_neg hneg]
    exact run_outlet_calls_all_ok (ports_to_outlet_ids ports) state apiOk 0 hOk
  · unfold set_outlets_state
    rw [if_neg hneg]
    exact run_outlet_calls_fail_at (ports_to_outlet_ids ports) state
      apiFail 0 k e hk (fun i hi => by simpa using hpre i hi)
      (by simpa using hfail)

/-- Concrete witness for `set_outlets_state_sequential`: three ports, all
succeed in one run; in the other run the second call (index 1) fails. -/
theorem set_outlets_state_sequential_witness :
    (AVAILABLE_STATES.contains ("off")) = true
    ∧ (∀ i : Nat, (fun (_ : Nat) => (none : Option ServerTechError)) i = none)
    ∧ 1 < (ports_to_outlet_ids
        [("h/PS1"), ("h/PS2"), ("h/PS3")]).length
    ∧ (∀ i, i < 1 →
        (fun i => if i = 1
            then some (ServerTechError.restAPIErr (""))
            else none) i = none)
    ∧ (fun i => if i = 1
          then some (ServerTechError.restAPIErr (""))
          else none) 1 = some (ServerTechError.restAPIErr (""))
    ∧ set_outlets_state [("h/PS1"), ("h/PS2"), ("h/PS3")] ("off")
        (fun (_ : Nat) => (none : Option ServerTechError)) =
      ⟨(ports_to_outlet_ids [("h/PS1"), ("h/PS2"), ("h/PS3")]).map
          (fun oid => (oid, ("off"))), none⟩
    ∧ set_outlets_state [("h/PS1"), ("h/PS2"), ("h/PS3")] ("off")
        (fun i => if i = 1
          then some (ServerTechError.restAPIErr (""))
          else none) =
      ⟨((ports_to_outlet_ids [("h/PS1"), ("h/PS2"), ("h/PS3")]).take (1 + 1)).map
          (fun oid => (oid, ("off"))), some (ServerTechError.restAPIErr (""))⟩ :=
  ⟨by decide, fun i => rfl, by decide, by decide, by decide,
    (set_outlets_state_sequential [("h/PS1"), ("h/PS2"), ("h/PS3")] ("off")
      (fun _ => none)
      (fun i => if i = 1 then some (ServerTechError.restAPIErr ("")) else none)
      1 (ServerTechError.restAPIErr (""))
      (by decide) (fun i => rfl) (by decide) (by decide) (by decide)).1,
    (set_outlets_state_sequential [("h/PS1"), ("h/PS2"), ("h/PS3")] ("off")
      (fun _ => none)
      (fun i => if i = 1 then some (ServerTechError.restAPIErr ("")) else none)
      1 (ServerTechError.restAPIErr (""))
      (by decide) (fun i => rfl) (by decide) (by decide) (by decide)).2⟩

/-! ## Theorems about `_do_request`, `get_pdu_info` and immutability -/

/-- C7: `_do_request` builds the URL
`scheme://address:port/jaws/path`, dispatches the call, and when the
response status is an HTTP error (4xx/5xx) and `raise_for_status` is set,
raises the error looked up in the map (falling back to the generic
`BaseServerTechError` when the code is absent); otherwise it returns the
raw response unchanged. -/
theorem do_request_spec {J : Type} (c : ConnParams) (m : HttpMethod)
    (path : String) (rfs : Bool) (emap : List (Nat × ServerTechError))
    (body : List (String × String)) (tr : HttpRequest → Response J) :
    request_url c path =
      c.scheme ++ ("://" ++ (c.address ++ (":" ++
        (toString c.port ++ ("/jaws/" ++ path)))))
    ∧ do_request c m path rfs emap body tr =
      (if rfs && isHTTPError (tr ⟨m, request_url c path, body⟩).status_code
        then ReqOutcome.err
          ((mapLookup emap (tr ⟨m, request_url c path, body⟩).status_code).getD
            (ServerTechError.baseErr ("")))
        else ReqOutcome.ok (tr ⟨m, request_url c path, body⟩)) := by
  constructor
  · unfold request_url base_url
    have hlit : (("/jaws") ++ ("/") : String) = ("/jaws/") := rfl
    have hjaws : (("/jaws") ++ (("/") ++ path) : String) = ("/jaws/") ++ path := by
      rw [← String.append_assoc, hlit]
    rw [String.append_assoc, String.append_assoc, String.append_assoc,
      String.append_assoc, String.append_assoc, hjaws]
  · rfl

/-- C8: `get_pdu_info` builds the mapping `model`/`serial`/`fw`; on the
spec's concrete JSON it returns exactly
`{"model": "PRO2", "serial": "SN1", "fw": "1.2"}`, and a missing
`model_number` / `product_serial_number` / `firmware` key yields the empty
string for the corresponding value. -/
theorem get_pdu_info_spec :
    (∀ (u : UnitInfo) (s : SystemInfo),
      get_pdu_info [u] s =
        [(("model"), (u.model_number).getD ("")),
         (("serial"), (u.product_serial_number).getD ("")),
         (("fw"), (s.firmware).getD (""))])
    ∧ get_pdu_info [⟨some ("PRO2"), some ("SN1")⟩] ⟨some ("1.2")⟩ =
        [(("model"), ("PRO2")), (("serial"), ("SN1")), (("fw"), ("1.2"))]
    ∧ get_pdu_info [⟨none, none⟩] ⟨none⟩ =
        [(("model"), ("")), (("serial"), ("")), (("fw"), (""))] :=
  ⟨fun _ _ => rfl, rfl, rfl⟩

/-- The units fold keeps the dict in one of two shapes: empty, or exactly
`[("model", _), ("serial", _)]` with the values of the last unit seen. -/
theorem unitsFold_last :
    ∀ (us : List UnitInfo) (d : List (String × String)),
      (d = [] ∨ ∃ a b, d = [(("model"), a), (("serial"), b)]) →
      ∀ u : UnitInfo,
        List.foldl unit_step d (us ++ [u]) =
          [(("model"), (u.model_number).getD ("")),
           (("serial"), (u.product_serial_number).getD (""))] := by
  intro us
  induction us with
  | nil =>
      intro d hd u
      rcases hd with h | ⟨a, b, h⟩ <;> subst h <;> rfl
  | cons v us ih =>
      intro d hd u
      have hstep : unit_step d v =
          [(("model"), (v.model_number).getD ("")),
           (("serial"), (v.product_serial_number).getD (""))] := by
        rcases hd with h | ⟨a, b, h⟩ <;> subst h <;> rfl
      show List.foldl unit_step (unit_step d v) (us ++ [u]) = _
      rw [hstep]
      exact ih _ (Or.inr ⟨_, _, rfl⟩) u

/-- C10: with an empty units array the result has only the key `fw`
(no `model`/`serial` keys at all); with several unit entries the
`model`/`serial` values come from the LAST entry of the array, each
iteration overwriting the previous one. -/
theorem get_pdu_info_edge_cases :
    (∀ s : SystemInfo, get_pdu_info [] s = [(("fw"), (s.firmware).getD (""))])
    ∧ (∀ (us : List UnitInfo) (u : UnitInfo) (s : SystemInfo),
        get_pdu_info (us ++ [u]) s =
          [(("model"), (u.model_number).getD ("")),
           (("serial"), (u.product_serial_number).getD ("")),
           (("fw"), (s.firmware).getD (""))]) := by
  constructor
  · intro s
    rfl
  · intro us u s
    unfold get_pdu_info
    rw [unitsFold_last us [] (Or.inl rfl) u]
    rfl

/-- C9: the connection parameters are immutable after construction.  Every
attribute assignment raises (`attrs` `on_setattr=frozen` on each field),
and every client operation — the verb wrappers, the decorated reads and
`set_outlet_state` — leaves the connection fields unchanged (their bodies
contain no field assignment; the threaded post-state equals the input). -/
theorem client_conn_params_immutable {J : Type} (c : ConnParams)
    (path oid st : String) (rfs : Bool)
    (emap : List (Nat × ServerTechError)) (body : List (String × String))
    (tr1 : HttpRequest → Response J)
    (tr : Nat → HttpRequest → Response J) :
    (∀ (f : FieldName) (v : AttrValue),
        conn_setattr c f v = Except.error ("FrozenAttributeError"))
    ∧ (do_get_st c path rfs emap tr1).2 = c
    ∧ (do_post_st c path rfs emap body tr1).2 = c
    ∧ (do_put_st c path rfs emap body tr1).2 = c
    ∧ (do_patch_st c path rfs emap body tr1).2 = c
    ∧ (do_delete_st c path rfs emap tr1).2 = c
    ∧ (get_pdu_units_info_st c tr).2 = c
    ∧ (get_pdu_system_info_st c tr).2 = c
    ∧ (get_outlets_st c tr).2 = c
    ∧ (set_outlet_state_st c oid st tr).2 = c :=
  ⟨fun _ _ => rfl, rfl, rfl, rfl, rfl, rfl, rfl, rfl, rfl, rfl⟩

end ServerTech
